import Mathlib

/-!
Shallow embedding of the wall-drawing interaction engine of
`src/engine/src/renderer/RendererLayer.ts` (the version with mouse-button
handling and SAT overlap detection), together with proofs about it.

Real-number arithmetic models the source's IEEE double arithmetic exactly
(the spec's tolerance clauses are interpreted as exact identities over ℝ).
`THREE.Vector2` / `THREE.Vector3` become `Vec2` / `Vec3`; a committed box
mesh is modelled by the data the source later reads back from it:
center position, geometry width and y-rotation.
-/

noncomputable section

open Classical

/-- Wall thickness constant `BOX_THICKNESS` from the source. -/
def BOX_THICKNESS : ℝ := 0.3

/-- Wall height constant `BOX_HEIGHT` from the source. -/
def BOX_HEIGHT : ℝ := 2.75

/-- Planar 2-vector, as `THREE.Vector2` (`y` holds the ground-plane z). -/
structure Vec2 where
  x : ℝ
  y : ℝ

/-- 3-vector, as `THREE.Vector3`. -/
structure Vec3 where
  x : ℝ
  y : ℝ
  z : ℝ

/-- `THREE.Vector2.dot`. -/
def dot (a b : Vec2) : ℝ := a.x * b.x + a.y * b.y

/-- `THREE.Vector2.length`. -/
def vlength (v : Vec2) : ℝ := Real.sqrt (v.x * v.x + v.y * v.y)

/-- `THREE.Vector2.normalize`: divides by `length() || 1`, so the zero
vector is returned unchanged. -/
def vnormalize (v : Vec2) : Vec2 :=
  if vlength v = 0 then v else ⟨v.x / vlength v, v.y / vlength v⟩

/-- `getEdgeNormal`: perpendicular of the edge `p2 - p1`, normalized. -/
def getEdgeNormal (p1 p2 : Vec2) : Vec2 :=
  vnormalize ⟨-(p2.y - p1.y), p2.x - p1.x⟩

/-- The four corners returned by `getWallCorners` (array indices 0..3). -/
structure Corners where
  c0 : Vec2
  c1 : Vec2
  c2 : Vec2
  c3 : Vec2

/-- The `min` accumulated by `projectRectangle` over the four corners. -/
def projMin (r : Corners) (axis : Vec2) : ℝ :=
  min (min (min (dot r.c0 axis) (dot r.c1 axis)) (dot r.c2 axis)) (dot r.c3 axis)

/-- The `max` accumulated by `projectRectangle` over the four corners. -/
def projMax (r : Corners) (axis : Vec2) : ℝ :=
  max (max (max (dot r.c0 axis) (dot r.c1 axis)) (dot r.c2 axis)) (dot r.c3 axis)

/-- One iteration of the SAT loop in `rectanglesIntersect`: the projection
intervals on `axis` do not overlap. -/
def separatedOn (r1 r2 : Corners) (axis : Vec2) : Bool :=
  decide (projMax r1 axis < projMin r2 axis ∨ projMax r2 axis < projMin r1 axis)

/-- `rectanglesIntersect`: Separating Axis Theorem over the four
edge-normal axes; `true` iff no axis separates the projections. -/
def rectanglesIntersect (r1 r2 : Corners) : Bool :=
  let axes := [getEdgeNormal r1.c0 r1.c1, getEdgeNormal r1.c1 r1.c2,
               getEdgeNormal r2.c0 r2.c1, getEdgeNormal r2.c1 r2.c2]
  !(axes.any fun axis => separatedOn r1 r2 axis)

/-- `getWallCorners`: oriented rectangle of a wall footprint. -/
def getWallCorners (start endP : Vec3) : Corners :=
  let dx := endP.x - start.x
  let dz := endP.z - start.z
  let length := Real.sqrt (dx * dx + dz * dz)
  if length < 0.001 then
    ⟨⟨start.x, start.z⟩, ⟨start.x, start.z⟩, ⟨start.x, start.z⟩, ⟨start.x, start.z⟩⟩
  else
    let dirX := dx / length
    let dirZ := dz / length
    let perpX := -dirZ
    let perpZ := dirX
    let halfThickness := BOX_THICKNESS / 2
    ⟨⟨start.x + perpX * halfThickness, start.z + perpZ * halfThickness⟩,
     ⟨start.x - perpX * halfThickness, start.z - perpZ * halfThickness⟩,
     ⟨endP.x - perpX * halfThickness, endP.z - perpZ * halfThickness⟩,
     ⟨endP.x + perpX * halfThickness, endP.z + perpZ * halfThickness⟩⟩

/-- `pointsAreEqual` with the source's default tolerance `0.001`
(the source never passes another value): planar (x,z) proximity. -/
def pointsAreEqual (p1 p2 : Vec3) : Bool :=
  decide (|p1.x - p2.x| < 0.001 ∧ |p1.z - p2.z| < 0.001)

/-- A committed box mesh, reduced to the fields the source reads back:
`position` (x, y, z), `geometry.parameters.width` and `rotation.y`. -/
structure Box where
  posX : ℝ
  posY : ℝ
  posZ : ℝ
  width : ℝ
  rotY : ℝ

/-- `getBoxStartPoint`: reconstruct a wall's start point from its mesh. -/
def getBoxStartPoint (box : Box) : Vec3 :=
  let halfLength := box.width / 2
  let angle := -box.rotY
  ⟨box.posX - halfLength * Real.cos angle, 0, box.posZ - halfLength * Real.sin angle⟩

/-- `getBoxEndPoint`: reconstruct a wall's end point from its mesh. -/
def getBoxEndPoint (box : Box) : Vec3 :=
  let halfLength := box.width / 2
  let angle := -box.rotY
  ⟨box.posX + halfLength * Real.cos angle, 0, box.posZ + halfLength * Real.sin angle⟩

/-- `checkWallIntersection`: reject iff some existing box neither shares an
endpoint with the candidate (within tolerance) nor passes the SAT test. -/
def checkWallIntersection (createdBoxes : List Box) (start endP : Vec3) : Bool :=
  let newWallCorners := getWallCorners start endP
  createdBoxes.any fun existingBox =>
    let boxStart := getBoxStartPoint existingBox
    let boxEnd := getBoxEndPoint existingBox
    if pointsAreEqual start boxStart || pointsAreEqual start boxEnd ||
       pointsAreEqual endP boxStart || pointsAreEqual endP boxEnd then
      false
    else
      rectanglesIntersect newWallCorners (getWallCorners boxStart boxEnd)

/-- JavaScript `Math.round`: nearest integer, halves toward `+∞`. -/
def jsRound (x : ℝ) : ℤ := ⌊x + 1 / 2⌋

/-- JavaScript `Math.atan2 y x`: the argument of the point `(x, y)`,
in `(-π, π]`. -/
def atan2 (y x : ℝ) : ℝ := Complex.arg ⟨x, y⟩

/-- The 45°-increment angle snap used by `updatePreviewBox` and
`createFinalBox`: degrees, `Math.round(deg / 45) * 45`, back to radians. -/
def snapAngle45 (angle : ℝ) : ℝ :=
  let angleInDegrees := angle * (180 / Real.pi)
  let snappedAngleDegrees := (jsRound (angleInDegrees / 45) : ℝ) * 45
  snappedAngleDegrees * (Real.pi / 180)

/-- The planar (x,z) length `Math.sqrt(dx*dx + dz*dz)` between two points. -/
def planarLength (start endP : Vec3) : ℝ :=
  Real.sqrt ((endP.x - start.x) * (endP.x - start.x) +
             (endP.z - start.z) * (endP.z - start.z))

/-- The snapped end point computed by `updatePreviewBox` and
`createFinalBox`: original length along the 45°-snapped direction,
`y` taken from the raw end point. -/
def snappedEndPoint (start endP : Vec3) : Vec3 :=
  let length := planarLength start endP
  let snappedAngle := snapAngle45 (atan2 (endP.z - start.z) (endP.x - start.x))
  ⟨start.x + length * Real.cos snappedAngle, endP.y,
   start.z + length * Real.sin snappedAngle⟩

/-- The box mesh built by `createFinalBox` / `updatePreviewBox`: centered
at the midpoint of start and snapped end, raised by half height, width =
raw length, y-rotation = negated snapped angle. -/
def mkWallBox (start snappedEnd : Vec3) (length snappedAngle : ℝ) : Box :=
  ⟨(start.x + snappedEnd.x) / 2, BOX_HEIGHT / 2, (start.z + snappedEnd.z) / 2,
   length, -snappedAngle⟩

/-- `createFinalBox`: returns the updated box list and `some snappedEnd`
on success, the unchanged list and `none` on a sub-minimum length or a
rejected overlap check. -/
def createFinalBox (createdBoxes : List Box) (start endP : Vec3) :
    List Box × Option Vec3 :=
  let length := planarLength start endP
  if length < 0.01 then (createdBoxes, none)
  else
    let snappedAngle := snapAngle45 (atan2 (endP.z - start.z) (endP.x - start.x))
    let snappedEnd := snappedEndPoint start endP
    if checkWallIntersection createdBoxes start snappedEnd then (createdBoxes, none)
    else (createdBoxes ++ [mkWallBox start snappedEnd length snappedAngle],
          some snappedEnd)

/-- Grid snap of one coordinate in `getGroundPosition`:
`Math.round(c / 0.01) * 0.01`. -/
def gridSnapCoord (c : ℝ) : ℝ := (jsRound (c / 0.01) : ℝ) * 0.01

/-- `getGroundPosition`'s snapping step: x and z snapped to the 0.01 grid,
y untouched. -/
def gridSnap (p : Vec3) : Vec3 := ⟨gridSnapCoord p.x, p.y, gridSnapCoord p.z⟩

/-- The drawing-related mutable fields of `RendererLayer`. -/
structure DrawState where
  drawMode : Bool
  startPosition : Option Vec3
  previewMesh : Option Box
  createdBoxes : List Box

/-- `resetDrawState`: clear preview and start position. -/
def resetDrawState (s : DrawState) : DrawState :=
  { s with previewMesh := none, startPosition := none }

/-- `toggleDrawMode`: set draw mode to `enabled` when provided, otherwise
flip it; leaving draw mode resets the drawing state. -/
def toggleDrawMode (s : DrawState) (enabled : Option Bool) : DrawState :=
  let dm := enabled.getD (!s.drawMode)
  let s1 := { s with drawMode := dm }
  if dm then s1 else resetDrawState s1

/-- `handleClick`: `ground` is the raw ray/plane intersection that
`getGroundPosition` would resolve (`none` when the ray misses); the grid
snap applied by `getGroundPosition` happens here, as in the source. -/
def handleClick (s : DrawState) (ground : Option Vec3) (button : ℤ) : DrawState :=
  if !s.drawMode then s
  else if button = 2 then toggleDrawMode s (some false)
  else if button ≠ 0 then s
  else
    match ground.map gridSnap with
    | none => s
    | some position =>
      match s.startPosition with
      | none => { s with startPosition := some position }
      | some startPos =>
        let r := createFinalBox s.createdBoxes startPos position
        let s1 := { s with createdBoxes := r.1, previewMesh := none }
        match r.2 with
        | some snappedEnd => { s1 with startPosition := some snappedEnd }
        | none => s1

/-- `updatePreviewBox`: rebuild the preview mesh for the snapped segment;
sub-minimum lengths leave the state unchanged. -/
def updatePreviewBox (s : DrawState) (start endP : Vec3) : DrawState :=
  let length := planarLength start endP
  if length < 0.01 then s
  else
    let snappedAngle := snapAngle45 (atan2 (endP.z - start.z) (endP.x - start.x))
    let snappedEnd := snappedEndPoint start endP
    { s with previewMesh := some (mkWallBox start snappedEnd length snappedAngle) }

/-- `handleMouseMove`: preview update while draw mode is on and a start
position is set. -/
def handleMouseMove (s : DrawState) (ground : Option Vec3) : DrawState :=
  if !s.drawMode then s
  else
    match s.startPosition with
    | none => s
    | some startPos =>
      match ground.map gridSnap with
      | none => s
      | some position => updatePreviewBox s startPos position

end

/-! ## General helper lemmas -/

theorem floor_half : ⌊(1 / 2 : ℝ)⌋ = 0 := by
  apply Int.floor_eq_zero_iff.mpr
  constructor <;> norm_num

theorem jsRound_intCast (n : ℤ) : jsRound (n : ℝ) = n := by
  unfold jsRound
  rw [add_comm, Int.floor_add_int, floor_half, zero_add]

theorem sqrt_eval {a b : ℝ} (hb : 0 ≤ b) (h : a = b * b) : Real.sqrt a = b := by
  rw [h, Real.sqrt_mul_self hb]

theorem gridSnapCoord_intCast (n : ℤ) : gridSnapCoord (n : ℝ) = (n : ℝ) := by
  unfold gridSnapCoord
  have h : ((n : ℝ) / 0.01) = ((100 * n : ℤ) : ℝ) := by
    push_cast
    ring
  rw [h, jsRound_intCast]
  push_cast
  ring

theorem gridSnapCoord_idem (c : ℝ) : gridSnapCoord (gridSnapCoord c) = gridSnapCoord c := by
  unfold gridSnapCoord
  have h : ((jsRound (c / 0.01) : ℝ) * 0.01) / 0.01 = ((jsRound (c / 0.01) : ℤ) : ℝ) := by
    field_simp
  rw [h, jsRound_intCast]

theorem planarLength_nonneg (s e : Vec3) : 0 ≤ planarLength s e := Real.sqrt_nonneg _

theorem planarLength_polar (s : Vec3) (L a y : ℝ) (hL : 0 ≤ L) :
    planarLength s ⟨s.x + L * Real.cos a, y, s.z + L * Real.sin a⟩ = L := by
  unfold planarLength
  have key : (({ x := s.x + L * Real.cos a, y := y, z := s.z + L * Real.sin a } : Vec3).x - s.x) *
        (({ x := s.x + L * Real.cos a, y := y, z := s.z + L * Real.sin a } : Vec3).x - s.x) +
        (({ x := s.x + L * Real.cos a, y := y, z := s.z + L * Real.sin a } : Vec3).z - s.z) *
        (({ x := s.x + L * Real.cos a, y := y, z := s.z + L * Real.sin a } : Vec3).z - s.z) =
        L ^ 2 := by
    show (s.x + L * Real.cos a - s.x) * (s.x + L * Real.cos a - s.x) +
        (s.z + L * Real.sin a - s.z) * (s.z + L * Real.sin a - s.z) = L ^ 2
    have hcs := Real.sin_sq_add_cos_sq a
    nlinarith [hcs]
  rw [key, Real.sqrt_sq hL]

theorem planarLength_snappedEnd (start endP : Vec3) :
    planarLength start (snappedEndPoint start endP) = planarLength start endP := by
  have h := planarLength_polar start (planarLength start endP)
    (snapAngle45 (atan2 (endP.z - start.z) (endP.x - start.x))) endP.y
    (planarLength_nonneg start endP)
  simpa [snappedEndPoint] using h

theorem snapAngle45_eq (angle : ℝ) :
    snapAngle45 angle = (jsRound (angle * (180 / Real.pi) / 45) : ℝ) * (Real.pi / 4) := by
  unfold snapAngle45
  ring

theorem snapAngle45_int_multiple (k : ℤ) :
    snapAngle45 ((k : ℝ) * (Real.pi / 4)) = (k : ℝ) * (Real.pi / 4) := by
  rw [snapAngle45_eq]
  have hpi := Real.pi_ne_zero
  have h : ((k : ℝ) * (Real.pi / 4)) * (180 / Real.pi) / 45 = (k : ℝ) := by
    field_simp
    ring
  rw [h, jsRound_intCast]

/-! ## Claim theorems -/

/-- Claim C8: the grid snap (rounding each of x and z to the nearest
multiple of the 0.01 grid step) is idempotent:
`gridSnap (gridSnap p) = gridSnap p` for every point `p`. -/
theorem gridSnap_idempotent (p : Vec3) : gridSnap (gridSnap p) = gridSnap p := by
  simp [gridSnap, gridSnapCoord_idem]

/-- Claim C6: for every start point and raw end point whose planar
distance `L` is at least `MIN_LENGTH` (0.01), the angle-snapped end point
computed by the commit path lies at distance exactly `L` from the start
point, and its y coordinate equals the raw end point's y coordinate. -/
theorem snappedEnd_preserves_length_and_y (start endP : Vec3)
    (h : 0.01 ≤ planarLength start endP) :
    planarLength start (snappedEndPoint start endP) = planarLength start endP ∧
    (snappedEndPoint start endP).y = endP.y := by
  exact ⟨planarLength_snappedEnd start endP, rfl⟩

/-- Witness for C6 at start `(0,0,0)`, raw end `(1,0,0)`. -/
theorem snappedEnd_preserves_length_and_y_witness :
    0.01 ≤ planarLength ⟨0, 0, 0⟩ ⟨1, 0, 0⟩ ∧
    (planarLength ⟨0, 0, 0⟩ (snappedEndPoint ⟨0, 0, 0⟩ ⟨1, 0, 0⟩) =
        planarLength ⟨0, 0, 0⟩ ⟨1, 0, 0⟩ ∧
      (snappedEndPoint ⟨0, 0, 0⟩ ⟨1, 0, 0⟩).y = (⟨1, 0, 0⟩ : Vec3).y) := by
  have hlen : planarLength (⟨0, 0, 0⟩ : Vec3) ⟨1, 0, 0⟩ = 1 := by
    unfold planarLength
    apply sqrt_eval <;> norm_num
  refine ⟨by rw [hlen]; norm_num, ?_⟩
  exact snappedEnd_preserves_length_and_y ⟨0, 0, 0⟩ ⟨1, 0, 0⟩ (by rw [hlen]; norm_num)

/-- Claim C1 counterexample: from the Armed state (draw mode on, no start
point), a secondary-button (button 2) pointer-down turns draw mode off,
contradicting the claim that draw mode remains on. -/
theorem secondary_click_draw_mode_off_cex :
    (handleClick ⟨true, none, none, []⟩ none 2).drawMode = false := by
  simp [handleClick, toggleDrawMode, resetDrawState]

/-- Claim C1 (amended): for every session state in which draw mode is on,
processing a secondary-button (button 2) pointer-down event turns draw
mode off (transition to Idle) and clears any stored start point and live
preview; the committed walls are untouched. -/
theorem secondary_click_resets_to_idle (s : DrawState) (ground : Option Vec3)
    (h : s.drawMode = true) :
    handleClick s ground 2 = ⟨false, none, none, s.createdBoxes⟩ := by
  cases s with
  | mk dm sp pm cb =>
    subst h
    simp [handleClick, toggleDrawMode, resetDrawState]

/-- Witness for the amended C1 at a concrete Pending state. -/
theorem secondary_click_resets_to_idle_witness :
    (⟨true, some ⟨1, 0, 2⟩, none, []⟩ : DrawState).drawMode = true ∧
    handleClick ⟨true, some ⟨1, 0, 2⟩, none, []⟩ none 2 = ⟨false, none, none, []⟩ :=
  ⟨rfl, secondary_click_resets_to_idle ⟨true, some ⟨1, 0, 2⟩, none, []⟩ none rfl⟩

theorem gridSnapCoord_zero : gridSnapCoord (0 : ℝ) = 0 := by
  simpa using gridSnapCoord_intCast 0

theorem gridSnapCoord_one : gridSnapCoord (1 : ℝ) = 1 := by
  simpa using gridSnapCoord_intCast 1

theorem gridSnapCoord_five : gridSnapCoord (5 : ℝ) = 5 := by
  simpa using gridSnapCoord_intCast 5

theorem planarLength_unit : planarLength ⟨0, 0, 0⟩ ⟨1, 0, 0⟩ = 1 := by
  unfold planarLength
  apply sqrt_eval <;> norm_num

/-- Claim C9: while Pending, a primary-button click whose candidate end
point lies at distance below `MIN_LENGTH` (0.01) from the stored start
point commits no segment and changes none of: the registry, the stored
start point, the draw mode. -/
theorem handleClick_below_min_no_change (s : DrawState) (sp raw : Vec3)
    (hdm : s.drawMode = true) (hsp : s.startPosition = some sp)
    (hlen : planarLength sp (gridSnap raw) < 0.01) :
    (handleClick s (some raw) 0).createdBoxes = s.createdBoxes ∧
    (handleClick s (some raw) 0).startPosition = s.startPosition ∧
    (handleClick s (some raw) 0).drawMode = s.drawMode := by
  cases s with
  | mk dm sp0 pm cb =>
    simp only [DrawState.mk.injEq] at hdm hsp
    subst hdm
    subst hsp
    simp [handleClick, createFinalBox, hlen]

/-- Witness for C9: clicking again at the start point itself. -/
theorem handleClick_below_min_no_change_witness :
    (⟨true, some ⟨0, 0, 0⟩, none, []⟩ : DrawState).drawMode = true ∧
    (⟨true, some ⟨0, 0, 0⟩, none, []⟩ : DrawState).startPosition = some ⟨0, 0, 0⟩ ∧
    planarLength ⟨0, 0, 0⟩ (gridSnap ⟨0, 0, 0⟩) < 0.01 ∧
    ((handleClick ⟨true, some ⟨0, 0, 0⟩, none, []⟩ (some ⟨0, 0, 0⟩) 0).createdBoxes =
        (⟨true, some ⟨0, 0, 0⟩, none, []⟩ : DrawState).createdBoxes ∧
      (handleClick ⟨true, some ⟨0, 0, 0⟩, none, []⟩ (some ⟨0, 0, 0⟩) 0).startPosition =
        (⟨true, some ⟨0, 0, 0⟩, none, []⟩ : DrawState).startPosition ∧
      (handleClick ⟨true, some ⟨0, 0, 0⟩, none, []⟩ (some ⟨0, 0, 0⟩) 0).drawMode =
        (⟨true, some ⟨0, 0, 0⟩, none, []⟩ : DrawState).drawMode) := by
  have hg : gridSnap ⟨0, 0, 0⟩ = (⟨0, 0, 0⟩ : Vec3) := by
    simp [gridSnap, gridSnapCoord_zero]
  have hlen : planarLength ⟨0, 0, 0⟩ (gridSnap ⟨0, 0, 0⟩) < 0.01 := by
    rw [hg]
    have h0 : planarLength (⟨0, 0, 0⟩ : Vec3) ⟨0, 0, 0⟩ = 0 := by
      unfold planarLength
      apply sqrt_eval <;> norm_num
    rw [h0]
    norm_num
  exact ⟨rfl, rfl, hlen,
    handleClick_below_min_no_change ⟨true, some ⟨0, 0, 0⟩, none, []⟩ ⟨0, 0, 0⟩ ⟨0, 0, 0⟩
      rfl rfl hlen⟩

/-- Claim C2: while Pending, a primary-button click whose grid- and
angle-snapped candidate end point yields a segment of length at least
`MIN_LENGTH` that the overlap check accepts appends exactly one new wall
box to the registry, clears the live preview, and sets the snapped end
point as the new start point, remaining in Pending. -/
theorem handleClick_commit_appends_and_chains (s : DrawState) (sp raw : Vec3)
    (hdm : s.drawMode = true) (hsp : s.startPosition = some sp)
    (hlen : 0.01 ≤ planarLength sp (gridSnap raw))
    (hacc : checkWallIntersection s.createdBoxes sp
      (snappedEndPoint sp (gridSnap raw)) = false) :
    handleClick s (some raw) 0 =
      { s with
        createdBoxes := s.createdBoxes ++
          [mkWallBox sp (snappedEndPoint sp (gridSnap raw))
            (planarLength sp (gridSnap raw))
            (snapAngle45 (atan2 ((gridSnap raw).z - sp.z) ((gridSnap raw).x - sp.x)))],
        previewMesh := none,
        startPosition := some (snappedEndPoint sp (gridSnap raw)) } := by
  have hlen' : ¬ planarLength sp (gridSnap raw) < 0.01 := not_lt.mpr hlen
  cases s with
  | mk dm sp0 pm cb =>
    simp only [DrawState.mk.injEq] at hdm hsp
    subst hdm
    subst hsp
    simp only [DrawState.mk.injEq] at hacc ⊢
    simp [handleClick, createFinalBox, hlen', hacc]

/-- Witness for C2: committing a unit wall from the origin into an empty
registry. -/
theorem handleClick_commit_appends_and_chains_witness :
    0.01 ≤ planarLength ⟨0, 0, 0⟩ (gridSnap ⟨1, 0, 0⟩) ∧
    checkWallIntersection [] ⟨0, 0, 0⟩ (snappedEndPoint ⟨0, 0, 0⟩ (gridSnap ⟨1, 0, 0⟩)) =
      false ∧
    handleClick ⟨true, some ⟨0, 0, 0⟩, none, []⟩ (some ⟨1, 0, 0⟩) 0 =
      { drawMode := true,
        startPosition := some (snappedEndPoint ⟨0, 0, 0⟩ (gridSnap ⟨1, 0, 0⟩)),
        previewMesh := none,
        createdBoxes := [] ++
          [mkWallBox ⟨0, 0, 0⟩ (snappedEndPoint ⟨0, 0, 0⟩ (gridSnap ⟨1, 0, 0⟩))
            (planarLength ⟨0, 0, 0⟩ (gridSnap ⟨1, 0, 0⟩))
            (snapAngle45 (atan2 ((gridSnap ⟨1, 0, 0⟩).z - (⟨0, 0, 0⟩ : Vec3).z)
              ((gridSnap ⟨1, 0, 0⟩).x - (⟨0, 0, 0⟩ : Vec3).x)))] } := by
  have hg : gridSnap ⟨1, 0, 0⟩ = (⟨1, 0, 0⟩ : Vec3) := by
    simp [gridSnap, gridSnapCoord_zero, gridSnapCoord_one]
  have hlen : 0.01 ≤ planarLength ⟨0, 0, 0⟩ (gridSnap ⟨1, 0, 0⟩) := by
    rw [hg, planarLength_unit]
    norm_num
  have hacc : checkWallIntersection [] ⟨0, 0, 0⟩
      (snappedEndPoint ⟨0, 0, 0⟩ (gridSnap ⟨1, 0, 0⟩)) = false := by
    simp [checkWallIntersection]
  exact ⟨hlen, hacc,
    handleClick_commit_appends_and_chains ⟨true, some ⟨0, 0, 0⟩, none, []⟩ ⟨0, 0, 0⟩
      ⟨1, 0, 0⟩ rfl rfl hlen hacc⟩

theorem wallCorners_horizontal :
    getWallCorners ⟨0, 0, 0⟩ ⟨5, 0, 0⟩ =
      ⟨⟨0, 3 / 20⟩, ⟨0, -(3 / 20)⟩, ⟨5, -(3 / 20)⟩, ⟨5, 3 / 20⟩⟩ := by
  simp only [getWallCorners]
  norm_num
  rw [show Real.sqrt 25 = 5 from sqrt_eval (by norm_num) (by norm_num)]
  norm_num [BOX_THICKNESS]

theorem wallCorners_vertical :
    getWallCorners ⟨2, 0, -3⟩ ⟨2, 0, 3⟩ =
      ⟨⟨37 / 20, -3⟩, ⟨43 / 20, -3⟩, ⟨43 / 20, 3⟩, ⟨37 / 20, 3⟩⟩ := by
  simp only [getWallCorners]
  norm_num
  rw [show Real.sqrt 36 = 6 from sqrt_eval (by norm_num) (by norm_num)]
  norm_num [BOX_THICKNESS]

theorem edgeNormal_h1 :
    getEdgeNormal ⟨0, 3 / 20⟩ ⟨0, -(3 / 20)⟩ = ⟨1, 0⟩ := by
  simp only [getEdgeNormal, vnormalize, vlength]
  norm_num
  rw [show Real.sqrt 9 = 3 from sqrt_eval (by norm_num) (by norm_num),
    show Real.sqrt 100 = 10 from sqrt_eval (by norm_num) (by norm_num)]
  norm_num

theorem edgeNormal_h2 :
    getEdgeNormal ⟨0, -(3 / 20)⟩ ⟨5, -(3 / 20)⟩ = ⟨0, 1⟩ := by
  simp only [getEdgeNormal, vnormalize, vlength]
  norm_num
  rw [show Real.sqrt 25 = 5 from sqrt_eval (by norm_num) (by norm_num)]
  norm_num

theorem edgeNormal_v1 :
    getEdgeNormal ⟨37 / 20, -3⟩ ⟨43 / 20, -3⟩ = ⟨0, 1⟩ := by
  simp only [getEdgeNormal, vnormalize, vlength]
  norm_num
  rw [show Real.sqrt 9 = 3 from sqrt_eval (by norm_num) (by norm_num),
    show Real.sqrt 100 = 10 from sqrt_eval (by norm_num) (by norm_num)]
  norm_num

theorem edgeNormal_v2 :
    getEdgeNormal ⟨43 / 20, -3⟩ ⟨43 / 20, 3⟩ = ⟨-1, 0⟩ := by
  simp only [getEdgeNormal, vnormalize, vlength]
  norm_num
  rw [show Real.sqrt 36 = 6 from sqrt_eval (by norm_num) (by norm_num)]
  norm_num

theorem sep10 :
    separatedOn
      ⟨⟨0, 3 / 20⟩, ⟨0, -(3 / 20)⟩, ⟨5, -(3 / 20)⟩, ⟨5, 3 / 20⟩⟩
      ⟨⟨37 / 20, -3⟩, ⟨43 / 20, -3⟩, ⟨43 / 20, 3⟩, ⟨37 / 20, 3⟩⟩ ⟨1, 0⟩ = false := by
  simp only [separatedOn, projMin, projMax, dot, decide_eq_false_iff_not]
  push_neg
  constructor <;> norm_num [min_def, max_def]

theorem sep01 :
    separatedOn
      ⟨⟨0, 3 / 20⟩, ⟨0, -(3 / 20)⟩, ⟨5, -(3 / 20)⟩, ⟨5, 3 / 20⟩⟩
      ⟨⟨37 / 20, -3⟩, ⟨43 / 20, -3⟩, ⟨43 / 20, 3⟩, ⟨37 / 20, 3⟩⟩ ⟨0, 1⟩ = false := by
  simp only [separatedOn, projMin, projMax, dot, decide_eq_false_iff_not]
  push_neg
  constructor <;> norm_num [min_def, max_def]

theorem sepm10 :
    separatedOn
      ⟨⟨0, 3 / 20⟩, ⟨0, -(3 / 20)⟩, ⟨5, -(3 / 20)⟩, ⟨5, 3 / 20⟩⟩
      ⟨⟨37 / 20, -3⟩, ⟨43 / 20, -3⟩, ⟨43 / 20, 3⟩, ⟨37 / 20, 3⟩⟩ ⟨-1, 0⟩ = false := by
  simp only [separatedOn, projMin, projMax, dot, decide_eq_false_iff_not]
  push_neg
  constructor <;> norm_num [min_def, max_def]

theorem crossing_rects_intersect :
    rectanglesIntersect
      ⟨⟨0, 3 / 20⟩, ⟨0, -(3 / 20)⟩, ⟨5, -(3 / 20)⟩, ⟨5, 3 / 20⟩⟩
      ⟨⟨37 / 20, -3⟩, ⟨43 / 20, -3⟩, ⟨43 / 20, 3⟩, ⟨37 / 20, 3⟩⟩ = true := by
  simp only [rectanglesIntersect]
  simp only [edgeNormal_h1, edgeNormal_h2, edgeNormal_v1, edgeNormal_v2,
    List.any_cons, List.any_nil, sep10, sep01, sepm10]
  rfl

theorem vBox_start :
    getBoxStartPoint ⟨2, BOX_HEIGHT / 2, 0, 6, -(Real.pi / 2)⟩ = ⟨2, 0, -3⟩ := by
  simp only [getBoxStartPoint, neg_neg]
  norm_num [Real.cos_pi_div_two, Real.sin_pi_div_two]

theorem vBox_end :
    getBoxEndPoint ⟨2, BOX_HEIGHT / 2, 0, 6, -(Real.pi / 2)⟩ = ⟨2, 0, 3⟩ := by
  simp only [getBoxEndPoint, neg_neg]
  norm_num [Real.cos_pi_div_two, Real.sin_pi_div_two]

theorem crossing_check :
    checkWallIntersection [⟨2, BOX_HEIGHT / 2, 0, 6, -(Real.pi / 2)⟩] ⟨0, 0, 0⟩ ⟨5, 0, 0⟩ =
      true := by
  simp only [checkWallIntersection, List.any_cons, List.any_nil, vBox_start, vBox_end]
  rw [show pointsAreEqual ⟨0, 0, 0⟩ ⟨2, 0, -3⟩ = false by simp [pointsAreEqual]; norm_num,
    show pointsAreEqual ⟨0, 0, 0⟩ ⟨2, 0, 3⟩ = false by simp [pointsAreEqual]; norm_num,
    show pointsAreEqual ⟨5, 0, 0⟩ ⟨2, 0, -3⟩ = false by simp [pointsAreEqual]; norm_num,
    show pointsAreEqual ⟨5, 0, 0⟩ ⟨2, 0, 3⟩ = false by simp [pointsAreEqual]; norm_num]
  simp only [Bool.or_false, Bool.false_or, if_false, Bool.or_self]
  rw [wallCorners_horizontal, wallCorners_vertical, crossing_rects_intersect]
  rfl

theorem atan2_zero_of_pos {x : ℝ} (hx : 0 < x) : atan2 0 x = 0 := by
  unfold atan2
  have h : (⟨x, 0⟩ : ℂ) = ((x : ℝ) : ℂ) := by
    apply Complex.ext <;> simp
  rw [h, Complex.arg_ofReal_of_nonneg hx.le]

theorem jsRound_zero : jsRound (0 : ℝ) = 0 := by
  simpa using jsRound_intCast 0

theorem snapAngle45_zero : snapAngle45 0 = 0 := by
  rw [snapAngle45_eq]
  norm_num [jsRound_zero]

theorem planarLength_five : planarLength ⟨0, 0, 0⟩ ⟨5, 0, 0⟩ = 5 := by
  unfold planarLength
  apply sqrt_eval <;> norm_num

theorem snappedEnd_five : snappedEndPoint ⟨0, 0, 0⟩ ⟨5, 0, 0⟩ = ⟨5, 0, 0⟩ := by
  simp only [snappedEndPoint, planarLength_five]
  norm_num
  rw [atan2_zero_of_pos (by norm_num), snapAngle45_zero]
  norm_num

/-- Claim C5: the crossing segments start `(0,0)`–end `(5,0)` and start
`(2,-3)`–end `(2,3)` (thickness 0.3, no shared endpoint): the SAT
rectangle test finds no separating axis, and the overlap check rejects
the candidate against the stored box of the second segment. -/
theorem crossing_segments_rejected :
    rectanglesIntersect (getWallCorners ⟨0, 0, 0⟩ ⟨5, 0, 0⟩)
      (getWallCorners ⟨2, 0, -3⟩ ⟨2, 0, 3⟩) = true ∧
    checkWallIntersection [⟨2, BOX_HEIGHT / 2, 0, 6, -(Real.pi / 2)⟩] ⟨0, 0, 0⟩ ⟨5, 0, 0⟩ =
      true := by
  constructor
  · rw [wallCorners_horizontal, wallCorners_vertical]
    exact crossing_rects_intersect
  · exact crossing_check

/-- Claim C3: while Pending, a primary-button click whose snapped
candidate segment is rejected by the overlap check commits nothing: the
registry, the start point and the draw mode are exactly as before, only
the live preview is cleared. -/
theorem handleClick_rejected_keeps_state (s : DrawState) (sp raw : Vec3)
    (hdm : s.drawMode = true) (hsp : s.startPosition = some sp)
    (hlen : 0.01 ≤ planarLength sp (gridSnap raw))
    (hrej : checkWallIntersection s.createdBoxes sp
      (snappedEndPoint sp (gridSnap raw)) = true) :
    handleClick s (some raw) 0 = { s with previewMesh := none } := by
  have hlen' : ¬ planarLength sp (gridSnap raw) < 0.01 := not_lt.mpr hlen
  cases s with
  | mk dm sp0 pm cb =>
    simp only [DrawState.mk.injEq] at hdm hsp
    subst hdm
    subst hsp
    simp only at hrej
    simp [handleClick, createFinalBox, hlen', hrej]

/-- Witness for C3: attempting to commit `(0,0)`–`(5,0)` while the
crossing wall `(2,-3)`–`(2,3)` is already in the registry. -/
theorem handleClick_rejected_keeps_state_witness :
    0.01 ≤ planarLength ⟨0, 0, 0⟩ (gridSnap ⟨5, 0, 0⟩) ∧
    checkWallIntersection [⟨2, BOX_HEIGHT / 2, 0, 6, -(Real.pi / 2)⟩] ⟨0, 0, 0⟩
      (snappedEndPoint ⟨0, 0, 0⟩ (gridSnap ⟨5, 0, 0⟩)) = true ∧
    handleClick
        ⟨true, some ⟨0, 0, 0⟩, none, [⟨2, BOX_HEIGHT / 2, 0, 6, -(Real.pi / 2)⟩]⟩
        (some ⟨5, 0, 0⟩) 0 =
      ⟨true, some ⟨0, 0, 0⟩, none, [⟨2, BOX_HEIGHT / 2, 0, 6, -(Real.pi / 2)⟩]⟩ := by
  have hg : gridSnap ⟨5, 0, 0⟩ = (⟨5, 0, 0⟩ : Vec3) := by
    simp [gridSnap, gridSnapCoord_zero, gridSnapCoord_five]
  have hlen : 0.01 ≤ planarLength ⟨0, 0, 0⟩ (gridSnap ⟨5, 0, 0⟩) := by
    rw [hg, planarLength_five]
    norm_num
  have hrej : checkWallIntersection [⟨2, BOX_HEIGHT / 2, 0, 6, -(Real.pi / 2)⟩] ⟨0, 0, 0⟩
      (snappedEndPoint ⟨0, 0, 0⟩ (gridSnap ⟨5, 0, 0⟩)) = true := by
    rw [hg, snappedEnd_five]
    exact crossing_check
  exact ⟨hlen, hrej,
    handleClick_rejected_keeps_state
      ⟨true, some ⟨0, 0, 0⟩, none, [⟨2, BOX_HEIGHT / 2, 0, 6, -(Real.pi / 2)⟩]⟩
      ⟨0, 0, 0⟩ ⟨5, 0, 0⟩ rfl rfl hlen hrej⟩

/-- Claim C4: a candidate whose start or end point coincides within the
0.001 planar tolerance with an endpoint of an existing segment skips that
pair; a candidate related in this way to every existing segment it would
otherwise collide with is never rejected by the overlap check. -/
theorem checkWallIntersection_shared_endpoints_accept (start endP : Vec3)
    (boxes : List Box)
    (h : ∀ b ∈ boxes,
      pointsAreEqual start (getBoxStartPoint b) = true ∨
      pointsAreEqual start (getBoxEndPoint b) = true ∨
      pointsAreEqual endP (getBoxStartPoint b) = true ∨
      pointsAreEqual endP (getBoxEndPoint b) = true ∨
      rectanglesIntersect (getWallCorners start endP)
        (getWallCorners (getBoxStartPoint b) (getBoxEndPoint b)) = false) :
    checkWallIntersection boxes start endP = false := by
  unfold checkWallIntersection
  rw [List.any_eq_false]
  intro b hb
  rcases h b hb with h1 | h1 | h1 | h1 | h1 <;> simp [h1]

/-- Witness for C4: a wall starting at the end point of the stored wall
`(0,0)`–`(5,0)` is accepted although their rectangles touch. -/
theorem checkWallIntersection_shared_endpoints_accept_witness :
    (∀ b ∈ [(⟨5 / 2, BOX_HEIGHT / 2, 0, 5, 0⟩ : Box)],
      pointsAreEqual ⟨5, 0, 0⟩ (getBoxStartPoint b) = true ∨
      pointsAreEqual ⟨5, 0, 0⟩ (getBoxEndPoint b) = true ∨
      pointsAreEqual ⟨5, 0, 5⟩ (getBoxStartPoint b) = true ∨
      pointsAreEqual ⟨5, 0, 5⟩ (getBoxEndPoint b) = true ∨
      rectanglesIntersect (getWallCorners ⟨5, 0, 0⟩ ⟨5, 0, 5⟩)
        (getWallCorners (getBoxStartPoint b) (getBoxEndPoint b)) = false) ∧
    checkWallIntersection [⟨5 / 2, BOX_HEIGHT / 2, 0, 5, 0⟩] ⟨5, 0, 0⟩ ⟨5, 0, 5⟩ =
      false := by
  have h : ∀ b ∈ [(⟨5 / 2, BOX_HEIGHT / 2, 0, 5, 0⟩ : Box)],
      pointsAreEqual ⟨5, 0, 0⟩ (getBoxStartPoint b) = true ∨
      pointsAreEqual ⟨5, 0, 0⟩ (getBoxEndPoint b) = true ∨
      pointsAreEqual ⟨5, 0, 5⟩ (getBoxStartPoint b) = true ∨
      pointsAreEqual ⟨5, 0, 5⟩ (getBoxEndPoint b) = true ∨
      rectanglesIntersect (getWallCorners ⟨5, 0, 0⟩ ⟨5, 0, 5⟩)
        (getWallCorners (getBoxStartPoint b) (getBoxEndPoint b)) = false := by
    intro b hb
    simp only [List.mem_singleton] at hb
    subst hb
    right
    left
    have hend : getBoxEndPoint ⟨5 / 2, BOX_HEIGHT / 2, 0, 5, 0⟩ = ⟨5, 0, 0⟩ := by
      simp only [getBoxEndPoint, neg_zero]
      norm_num [Real.cos_zero, Real.sin_zero]
    rw [hend]
    simp [pointsAreEqual]
    norm_num
  exact ⟨h, checkWallIntersection_shared_endpoints_accept ⟨5, 0, 0⟩ ⟨5, 0, 5⟩ _ h⟩

/-- Claim C10: the start and end points reconstructed from a committed
box mesh (center position, geometry width, negated y-rotation) equal
planarly the snapped start and end points the box was created from. -/
theorem box_endpoints_roundtrip (boxes : List Box) (start endP : Vec3) (b : Box)
    (se : Vec3) (h : createFinalBox boxes start endP = (boxes ++ [b], some se)) :
    getBoxStartPoint b = ⟨start.x, 0, start.z⟩ ∧
    getBoxEndPoint b = ⟨se.x, 0, se.z⟩ := by
  simp only [createFinalBox] at h
  by_cases h1 : planarLength start endP < 0.01
  · rw [if_pos h1] at h
    simp at h
  · rw [if_neg h1] at h
    by_cases h2 : checkWallIntersection boxes start (snappedEndPoint start endP) = true
    · rw [if_pos h2] at h
      simp at h
    · rw [if_neg h2] at h
      rw [Prod.mk.injEq] at h
      obtain ⟨hb, hse⟩ := h
      have hb' := List.append_cancel_left hb
      simp only [List.cons.injEq, and_true] at hb'
      simp only [Option.some.injEq] at hse
      subst hb'
      subst hse
      constructor
      · simp only [getBoxStartPoint, mkWallBox, snappedEndPoint, neg_neg, Vec3.mk.injEq]
        refine ⟨by ring, trivial, by ring⟩
      · simp only [getBoxEndPoint, mkWallBox, snappedEndPoint, neg_neg, Vec3.mk.injEq]
        refine ⟨by ring, trivial, by ring⟩

/-- Witness for C10: the unit wall committed from the origin. -/
theorem box_endpoints_roundtrip_witness :
    createFinalBox [] ⟨0, 0, 0⟩ ⟨1, 0, 0⟩ =
      ([] ++ [mkWallBox ⟨0, 0, 0⟩ (snappedEndPoint ⟨0, 0, 0⟩ ⟨1, 0, 0⟩)
        (planarLength ⟨0, 0, 0⟩ ⟨1, 0, 0⟩)
        (snapAngle45 (atan2 ((⟨1, 0, 0⟩ : Vec3).z - (⟨0, 0, 0⟩ : Vec3).z)
          ((⟨1, 0, 0⟩ : Vec3).x - (⟨0, 0, 0⟩ : Vec3).x)))],
       some (snappedEndPoint ⟨0, 0, 0⟩ ⟨1, 0, 0⟩)) ∧
    (getBoxStartPoint (mkWallBox ⟨0, 0, 0⟩ (snappedEndPoint ⟨0, 0, 0⟩ ⟨1, 0, 0⟩)
        (planarLength ⟨0, 0, 0⟩ ⟨1, 0, 0⟩)
        (snapAngle45 (atan2 ((⟨1, 0, 0⟩ : Vec3).z - (⟨0, 0, 0⟩ : Vec3).z)
          ((⟨1, 0, 0⟩ : Vec3).x - (⟨0, 0, 0⟩ : Vec3).x)))) =
        ⟨(⟨0, 0, 0⟩ : Vec3).x, 0, (⟨0, 0, 0⟩ : Vec3).z⟩ ∧
      getBoxEndPoint (mkWallBox ⟨0, 0, 0⟩ (snappedEndPoint ⟨0, 0, 0⟩ ⟨1, 0, 0⟩)
        (planarLength ⟨0, 0, 0⟩ ⟨1, 0, 0⟩)
        (snapAngle45 (atan2 ((⟨1, 0, 0⟩ : Vec3).z - (⟨0, 0, 0⟩ : Vec3).z)
          ((⟨1, 0, 0⟩ : Vec3).x - (⟨0, 0, 0⟩ : Vec3).x)))) =
        ⟨(snappedEndPoint ⟨0, 0, 0⟩ ⟨1, 0, 0⟩).x, 0,
          (snappedEndPoint ⟨0, 0, 0⟩ ⟨1, 0, 0⟩).z⟩) := by
  have h : createFinalBox [] ⟨0, 0, 0⟩ ⟨1, 0, 0⟩ =
      ([] ++ [mkWallBox ⟨0, 0, 0⟩ (snappedEndPoint ⟨0, 0, 0⟩ ⟨1, 0, 0⟩)
        (planarLength ⟨0, 0, 0⟩ ⟨1, 0, 0⟩)
        (snapAngle45 (atan2 ((⟨1, 0, 0⟩ : Vec3).z - (⟨0, 0, 0⟩ : Vec3).z)
          ((⟨1, 0, 0⟩ : Vec3).x - (⟨0, 0, 0⟩ : Vec3).x)))],
       some (snappedEndPoint ⟨0, 0, 0⟩ ⟨1, 0, 0⟩)) := by
    simp only [createFinalBox]
    rw [if_neg (by rw [planarLength_unit]; norm_num),
      if_neg (by simp [checkWallIntersection])]
  exact ⟨h, box_endpoints_roundtrip [] ⟨0, 0, 0⟩ ⟨1, 0, 0⟩ _ _ h⟩

theorem atan2_polar {L θ : ℝ} (hL : 0 < L) (hθ : θ ∈ Set.Ioc (-Real.pi) Real.pi) :
    atan2 (L * Real.sin θ) (L * Real.cos θ) = θ := by
  unfold atan2
  have h : (⟨L * Real.cos θ, L * Real.sin θ⟩ : ℂ) =
      (L : ℂ) * (Complex.cos ↑θ + Complex.sin ↑θ * Complex.I) := by
    apply Complex.ext <;>
      simp [Complex.mul_re, Complex.mul_im, Complex.add_re, Complex.add_im,
        Complex.cos_ofReal_re, Complex.sin_ofReal_re, Complex.cos_ofReal_im,
        Complex.sin_ofReal_im, Complex.mul_I_re, Complex.mul_I_im]
  rw [h, Complex.arg_real_mul _ hL, Complex.arg_cos_add_sin_mul_I hθ]

theorem atan2_neg_polar {L : ℝ} (hL : 0 < L) :
    atan2 (L * Real.sin (-Real.pi)) (L * Real.cos (-Real.pi)) = Real.pi := by
  rw [Real.sin_neg, Real.sin_pi, Real.cos_neg, Real.cos_pi]
  rw [show L * -0 = 0 by ring, show L * (-1) = -L by ring]
  unfold atan2
  have h : (⟨-L, 0⟩ : ℂ) = ((-L : ℝ) : ℂ) := by
    apply Complex.ext <;> simp
  rw [h, Complex.arg_ofReal_of_neg (by linarith)]

theorem snapped_k_bounds (θ : ℝ) (hθ : θ ∈ Set.Ioc (-Real.pi) Real.pi) :
    -4 ≤ jsRound (θ * (180 / Real.pi) / 45) ∧ jsRound (θ * (180 / Real.pi) / 45) ≤ 4 := by
  have hpi : 0 < Real.pi := Real.pi_pos
  have h2 : θ * (180 / Real.pi) / 45 = θ * (4 / Real.pi) := by ring
  have hub : θ * (180 / Real.pi) / 45 ≤ 4 := by
    rw [h2]
    calc θ * (4 / Real.pi) ≤ Real.pi * (4 / Real.pi) := by
          apply mul_le_mul_of_nonneg_right hθ.2
          positivity
      _ = 4 := by field_simp
  have hlb : -4 < θ * (180 / Real.pi) / 45 := by
    rw [h2]
    have hstep : -Real.pi * (4 / Real.pi) < θ * (4 / Real.pi) := by
      apply mul_lt_mul_of_pos_right hθ.1
      positivity
    calc (-4 : ℝ) = -Real.pi * (4 / Real.pi) := by
          field_simp
          ring
      _ < θ * (4 / Real.pi) := hstep
  unfold jsRound
  constructor
  · rw [Int.le_floor]
    push_cast
    linarith
  · rw [Int.floor_le_iff]
    push_cast
    linarith

theorem snapped_dir_spec (start endP : Vec3) (hL : 0 < planarLength start endP) :
    ∃ k : ℤ,
      atan2 ((snappedEndPoint start endP).z - start.z)
        ((snappedEndPoint start endP).x - start.x) = (k : ℝ) * (Real.pi / 4) ∧
      Real.cos ((k : ℝ) * (Real.pi / 4)) =
        Real.cos (snapAngle45 (atan2 (endP.z - start.z) (endP.x - start.x))) ∧
      Real.sin ((k : ℝ) * (Real.pi / 4)) =
        Real.sin (snapAngle45 (atan2 (endP.z - start.z) (endP.x - start.x))) := by
  set θ := atan2 (endP.z - start.z) (endP.x - start.x) with hθdef
  have hθ : θ ∈ Set.Ioc (-Real.pi) Real.pi := by
    rw [hθdef]
    exact Complex.arg_mem_Ioc _
  set k0 := jsRound (θ * (180 / Real.pi) / 45) with hk0
  have hsnap : snapAngle45 θ = (k0 : ℝ) * (Real.pi / 4) := snapAngle45_eq θ
  have hsub_x : (snappedEndPoint start endP).x - start.x =
      planarLength start endP * Real.cos (snapAngle45 θ) := by
    simp [snappedEndPoint]
  have hsub_z : (snappedEndPoint start endP).z - start.z =
      planarLength start endP * Real.sin (snapAngle45 θ) := by
    simp [snappedEndPoint]
  have hb := snapped_k_bounds θ hθ
  rw [← hk0] at hb
  by_cases hk : k0 = -4
  · refine ⟨4, ?_, ?_, ?_⟩
    · rw [hsub_x, hsub_z, hsnap, hk]
      rw [show (((-4 : ℤ) : ℝ)) * (Real.pi / 4) = -Real.pi by push_cast; ring]
      rw [show (((4 : ℤ) : ℝ)) * (Real.pi / 4) = Real.pi by push_cast; ring]
      exact atan2_neg_polar hL
    · rw [hsnap, hk]
      rw [show (((-4 : ℤ) : ℝ)) * (Real.pi / 4) = -Real.pi by push_cast; ring]
      rw [show (((4 : ℤ) : ℝ)) * (Real.pi / 4) = Real.pi by push_cast; ring]
      rw [Real.cos_neg]
    · rw [hsnap, hk]
      rw [show (((-4 : ℤ) : ℝ)) * (Real.pi / 4) = -Real.pi by push_cast; ring]
      rw [show (((4 : ℤ) : ℝ)) * (Real.pi / 4) = Real.pi by push_cast; ring]
      rw [Real.sin_neg, Real.sin_pi]
      norm_num
  · have hk4 : -4 < k0 := lt_of_le_of_ne hb.1 (Ne.symm hk)
    refine ⟨k0, ?_, by rw [hsnap], by rw [hsnap]⟩
    rw [hsub_x, hsub_z, hsnap]
    apply atan2_polar hL
    have hk3 : (-3 : ℝ) ≤ (k0 : ℝ) := by
      have : (-3 : ℤ) ≤ k0 := by omega
      exact_mod_cast this
    have hk4' : (k0 : ℝ) ≤ 4 := by exact_mod_cast hb.2
    constructor
    · nlinarith [Real.pi_pos]
    · nlinarith [Real.pi_pos]

theorem snappedEnd_idem (start endP : Vec3) (h : 0.01 ≤ planarLength start endP) :
    snappedEndPoint start (snappedEndPoint start endP) = snappedEndPoint start endP := by
  have hL : 0 < planarLength start endP := lt_of_lt_of_le (by norm_num) h
  obtain ⟨k, hk, hcos, hsin⟩ := snapped_dir_spec start endP hL
  have hunf : snappedEndPoint start (snappedEndPoint start endP) =
      ⟨start.x + planarLength start (snappedEndPoint start endP) *
          Real.cos (snapAngle45 (atan2 ((snappedEndPoint start endP).z - start.z)
            ((snappedEndPoint start endP).x - start.x))),
       (snappedEndPoint start endP).y,
       start.z + planarLength start (snappedEndPoint start endP) *
          Real.sin (snapAngle45 (atan2 ((snappedEndPoint start endP).z - start.z)
            ((snappedEndPoint start endP).x - start.x)))⟩ := rfl
  rw [hunf, planarLength_snappedEnd, hk, snapAngle45_int_multiple, ← hk]
  rw [hk, hcos, hsin]
  rfl

/-- Claim C7: for every start and raw end point at planar distance at
least `MIN_LENGTH`, the direction angle of the snapped segment is an
integer multiple of 45° (π/4), and applying the angle snap again to the
snapped segment returns the same snapped end point. -/
theorem snapAngle_multiple_of_45_and_idempotent (start endP : Vec3)
    (h : 0.01 ≤ planarLength start endP) :
    (∃ k : ℤ, atan2 ((snappedEndPoint start endP).z - start.z)
      ((snappedEndPoint start endP).x - start.x) = (k : ℝ) * (Real.pi / 4)) ∧
    snappedEndPoint start (snappedEndPoint start endP) = snappedEndPoint start endP := by
  have hL : 0 < planarLength start endP := lt_of_lt_of_le (by norm_num) h
  obtain ⟨k, hk, -, -⟩ := snapped_dir_spec start endP hL
  exact ⟨⟨k, hk⟩, snappedEnd_idem start endP h⟩

/-- Witness for C7 at start `(0,0,0)`, raw end `(1,0,0)`. -/
theorem snapAngle_multiple_of_45_and_idempotent_witness :
    0.01 ≤ planarLength ⟨0, 0, 0⟩ ⟨1, 0, 0⟩ ∧
    ((∃ k : ℤ, atan2 ((snappedEndPoint ⟨0, 0, 0⟩ ⟨1, 0, 0⟩).z - (⟨0, 0, 0⟩ : Vec3).z)
        ((snappedEndPoint ⟨0, 0, 0⟩ ⟨1, 0, 0⟩).x - (⟨0, 0, 0⟩ : Vec3).x) =
        (k : ℝ) * (Real.pi / 4)) ∧
      snappedEndPoint ⟨0, 0, 0⟩ (snappedEndPoint ⟨0, 0, 0⟩ ⟨1, 0, 0⟩) =
        snappedEndPoint ⟨0, 0, 0⟩ ⟨1, 0, 0⟩) := by
  have hlen : 0.01 ≤ planarLength ⟨0, 0, 0⟩ ⟨1, 0, 0⟩ := by
    rw [planarLength_unit]
    norm_num
  exact ⟨hlen, snapAngle_multiple_of_45_and_idempotent ⟨0, 0, 0⟩ ⟨1, 0, 0⟩ hlen⟩
